import Mathlib

/-!
Shallow embedding of `deployment-manager/k8s-api-cli.go`, a small HTTP facade
that creates, lists, updates and deletes Kubernetes Deployment resources.

The embedding models:
* `RemoveNonAlphanumericChars` (regex `[^a-zA-Z0-9]+` replaced by the empty
  string) — name derivation for created deployments;
* the deployment template built by `CreateDeploymentStruct` and the in-place
  mutation performed by the `CreateDeployment` handler (the template is a
  process-global value, so the handler's effect is modelled as a function
  from the current template and the parsed request to the new template);
* the `CreateDeployment` handler's interaction trace with the store
  (namespace create, deployment create, response writes / panics);
* the conflict-retry update loop of `UpdateDeployment`, built on client-go's
  `retry.RetryOnConflict(retry.DefaultRetry, fn)` where `retry.DefaultRetry`
  executes the closure at most 5 times (Steps = 5), retrying only on
  version-conflict errors;
* the `ListDeployment` handler, which dereferences each item's `*int32`
  replica pointer without a nil guard (modelled with `Option`);
* the `DeleteDeployment` handler, including its write sequence on failure.
-/

namespace K8sDM

/-- ASCII alphanumeric test, the character class `[a-zA-Z0-9]` of the regex
in `RemoveNonAlphanumericChars` (`k8s-api-cli.go:212`). -/
def isAlphaNumAscii (c : Char) : Bool :=
  let n := c.toNat
  (97 ≤ n && n ≤ 122) || (65 ≤ n && n ≤ 90) || (48 ≤ n && n ≤ 57)

/-- Semantics of `regexp.Compile("[^a-zA-Z0-9]+").ReplaceAllString(value, "")`:
each maximal run of characters outside `[a-zA-Z0-9]` is matched and replaced
by the empty string; characters inside the class are copied through. -/
def regexStripRuns : List Char → List Char
  | [] => []
  | c :: cs =>
    if isAlphaNumAscii c then
      c :: regexStripRuns cs
    else
      regexStripRuns (cs.dropWhile (fun x => !isAlphaNumAscii x))
termination_by l => l.length
decreasing_by
  · simp only [List.length_cons]
    exact Nat.lt_succ_of_le (Nat.le_refl _)
  · simp only [List.length_cons]
    exact Nat.lt_succ_of_le (List.dropWhile_sublist _).length_le

/-- `RemoveNonAlphanumericChars` (`k8s-api-cli.go:211-217`). -/
def RemoveNonAlphanumericChars (value : String) : String :=
  String.mk (regexStripRuns value.toList)

/-- The spec's description of the derivation: strip from the string all
characters outside `[a-zA-Z0-9]` (i.e. keep exactly the alphanumerics). -/
def stripNonAlphanumericSpec (value : String) : String :=
  String.mk (value.toList.filter isAlphaNumAscii)

/-- A Go `map[string]string`, as an association list updated in place;
the only operations the program performs are literal construction and
`m[k] = v` assignment (`mapAssign`). -/
abbrev LabelMap := List (String × String)

/-- Go map assignment `m[k] = v`. -/
def mapAssign (m : LabelMap) (k v : String) : LabelMap :=
  match m with
  | [] => [(k, v)]
  | (k0, v0) :: rest =>
    if k0 = k then (k, v) :: rest else (k0, v0) :: mapAssign rest k v

/-- `apiv1.ContainerPort` — the fields the program sets. -/
structure ContainerPort where
  Name : String
  Protocol : String
  PortNumber : Int
deriving DecidableEq, Repr

/-- `apiv1.Container` — the fields the program sets. -/
structure Container where
  Name : String
  Image : String
  Ports : List ContainerPort
deriving DecidableEq, Repr

/-- `apiv1.PodTemplateSpec` — labels plus the pod's containers. -/
structure PodTemplate where
  Labels : LabelMap
  Containers : List Container
deriving DecidableEq, Repr

/-- `appsv1.Deployment` — the fields the program reads or writes:
object name and namespace, `Spec.Replicas` (a `*int32`, hence `Option`),
`Spec.Selector.MatchLabels`, and `Spec.Template`. -/
structure Deployment where
  Name : String
  Namespace : String
  Replicas : Option Int
  MatchLabels : LabelMap
  Template : PodTemplate
deriving DecidableEq, Repr

/-- The request DTO `DeploymentInfo` (`k8s-api-cli.go:31-33`). -/
structure DeploymentInfo where
  Image : String
  Namespace : String
deriving DecidableEq, Repr

/-- The template built by `CreateDeploymentStruct` (`k8s-api-cli.go:54-90`):
name `demo-deployment`, 2 replicas, selector and pod labels `{app: demo}`,
one container `web` with image `nginx:1.12` and one named TCP port 80. -/
def CreateDeploymentStruct : Deployment :=
  { Name := "demo-deployment"
    Namespace := ""
    Replicas := some 2
    MatchLabels := [("app", "demo")]
    Template :=
      { Labels := [("app", "demo")]
        Containers :=
          [{ Name := "web"
             Image := "nginx:1.12"
             Ports := [{ Name := "http", Protocol := "TCP", PortNumber := 80 }] }] } }

/-- `Containers[0].Image = img` on a non-empty slice; Go panics on an empty
slice, here the empty list is returned unchanged (the create path never
reaches it: the template always holds exactly one container). -/
def setFirstImage (cs : List Container) (img : String) : List Container :=
  match cs with
  | [] => []
  | c :: rest => { c with Image := img } :: rest

/-- The field assignments of the `CreateDeployment` handler
(`k8s-api-cli.go:127-132`), applied to the process-global template `d`:
`appName := RemoveNonAlphanumericChars(deploy.Image)`, then
`Name`, `MatchLabels["app"]`, `Namespace`, `Template.Labels["app"]`,
`Template.Containers[0].Image` are assigned in place. -/
def applyCreateMutation (d : Deployment) (info : DeploymentInfo) : Deployment :=
  let appName := RemoveNonAlphanumericChars info.Image
  { d with
    Name := appName
    MatchLabels := mapAssign d.MatchLabels "app" appName
    Namespace := info.Namespace
    Template :=
      { d.Template with
        Labels := mapAssign d.Template.Labels "app" appName
        Containers := setFirstImage d.Template.Containers info.Image } }

/-- Outcome of a request handler: a body written to the response on the
success path, a panic (the Go handlers call `panic(...)` on fatal errors),
or an HTTP client-error response (4xx). The handlers of this program never
produce `clientError`; the constructor records that such a response is a
possible HTTP outcome the code chooses not to use. -/
inductive HandlerOutcome where
  | wrote (body : String)
  | panicked (msg : String)
  | clientError (code : Int)
deriving DecidableEq, Repr

/-- Result of the store's `Namespaces().Create` call
(`k8s-api-cli.go:147`), distinguishing the "already exists" condition. -/
inductive NsCreateResult where
  | ok
  | alreadyExists
  | otherErr
deriving DecidableEq, Repr

/-- Interaction trace of the `CreateDeployment` handler: the namespace name
submitted to `CreateNamespace`, the deployment submitted to
`Deployments(...).Create` (`none` when the call is never issued), and the
handler outcome. -/
structure CreateTrace where
  nsSubmitted : Option String
  deploySubmitted : Option Deployment
  outcome : HandlerOutcome
deriving DecidableEq, Repr

/-- The `CreateDeployment` handler (`k8s-api-cli.go:123-143`).
`global` is the current process-global template; `parsed` is the result of
`req.ReadEntity` (`none` models a body that fails to parse, leaving the
zero-valued `DeploymentInfo{"", ""}` — the handler ignores `ReadEntity`'s
error return); `nsRes` is the store's reply to the namespace create (the
handler assigns it to `err` and never inspects it); `deployCreateOk` is
whether the store accepts the deployment create (on rejection the handler
panics, `k8s-api-cli.go:139`). -/
def CreateDeployment (global : Deployment) (parsed : Option DeploymentInfo)
    (nsRes : NsCreateResult) (deployCreateOk : Bool) : CreateTrace :=
  let info := parsed.getD { Image := "", Namespace := "" }
  let d := applyCreateMutation global info
  let _ := nsRes
  { nsSubmitted := some info.Namespace
    deploySubmitted := some d
    outcome :=
      if deployCreateOk then
        .wrote ("Created deployment " ++ d.Name)
      else
        .panicked "create failed" }

/-- An inbound HTTP request as the update handler could observe it: a raw
body and the path parameters. `UpdateDeployment` reads only the path
parameters `namespace-name` and `deployment-name`, never the body. -/
structure HttpRequest where
  Body : String
  PathParams : List (String × String)
deriving DecidableEq, Repr

/-- The mutation step of the `UpdateDeployment` closure
(`k8s-api-cli.go:162-163`): on the fetched deployment, set
`Spec.Replicas = int32Ptr(1)` and `Spec.Template.Spec.Containers[0].Image =
"nginx:1.13"`. The request is in scope for the closure but unused. `none`
models the index panic `Containers[0]` on an empty container slice. -/
def updateMutationOf (req : HttpRequest) (fetched : Deployment) : Option Deployment :=
  let _ := req
  match fetched.Template.Containers with
  | [] => none
  | c :: rest =>
    some { fetched with
           Replicas := some 1
           Template :=
             { fetched.Template with
               Containers := { c with Image := "nginx:1.13" } :: rest } }

/-- The store's reply to the `i`-th `Deployments(...).Update` submission. -/
inductive SubmitReply where
  | accepted
  | conflict
  | otherErr
deriving DecidableEq, Repr

/-- A simulated store for the update path: what the `i`-th
`Deployments(...).Get` returns (`none` = get error, which the closure turns
into a panic, `k8s-api-cli.go:158-160`) and how the store answers the `i`-th
update submission. -/
structure StoreSim where
  fetch : Nat → Option Deployment
  submit : Nat → SubmitReply

/-- Terminal state of the conflict-retry loop, the state machine
`FETCHING → MUTATING → SUBMITTING → {SUCCESS | CONFLICT→FETCHING | FATAL}`. -/
inductive UpdateOutcome where
  | updated
  | panicked
  | fatalErr
  | exhausted
deriving DecidableEq, Repr

/-- `retry.DefaultRetry.Steps` of client-go: `RetryOnConflict` with the
default policy executes the closure at most 5 times. -/
def defaultRetrySteps : Nat := 5

/-- The retry loop of `UpdateDeployment` (`k8s-api-cli.go:155-166`):
`retry.RetryOnConflict(retry.DefaultRetry, fn)` runs the closure — fetch,
mutate, submit — up to `steps` times, retrying exactly when the submission
is rejected with a version conflict. `i` is the index of the next cycle;
the second component of the result is the total number of
fetch/mutate/submit cycles executed. -/
def updateLoop (st : StoreSim) (req : HttpRequest) :
    Nat → Nat → UpdateOutcome × Nat
  | 0, i => (.exhausted, i)
  | steps + 1, i =>
    match st.fetch i with
    | none => (.panicked, i + 1)
    | some cur =>
      match updateMutationOf req cur with
      | none => (.panicked, i + 1)
      | some _ =>
        match st.submit i with
        | .accepted => (.updated, i + 1)
        | .conflict => updateLoop st req steps (i + 1)
        | .otherErr => (.fatalErr, i + 1)

/-- The `UpdateDeployment` handler (`k8s-api-cli.go:151-172`): run the
conflict-retry loop with the default budget; on success write
`"Updated deployment..."`, on any retry error (exhaustion or non-conflict
failure) panic with a fatal update failure (`k8s-api-cli.go:167-169`).
Returns the outcome together with the number of cycles executed. -/
def UpdateDeployment (st : StoreSim) (req : HttpRequest) : HandlerOutcome × Nat :=
  let r := updateLoop st req defaultRetrySteps 0
  (match r.1 with
   | .updated => .wrote "Updated deployment..."
   | _ => .panicked "Update failed", r.2)

/-- The response-building loop of `ListDeployment` (`k8s-api-cli.go:182-189`):
for each listed item append `d.Name ++ " " ++ FormatInt(*d.Spec.Replicas) ++
"\n"` to the buffer. Dereferencing `*d.Spec.Replicas` with `Replicas = none`
is a nil-pointer dereference, i.e. a panic: the whole result is `none` and
nothing is written to the response. -/
def listLines : List Deployment → Option String
  | [] => some ""
  | d :: ds =>
    match d.Replicas with
    | none => none
    | some r =>
      match listLines ds with
      | none => none
      | some rest => some (d.Name ++ " " ++ toString r ++ "\n" ++ rest)

/-- The `ListDeployment` handler (`k8s-api-cli.go:174-191`): panic when the
store's list call fails (`k8s-api-cli.go:180`), otherwise build the buffer
and write it. -/
def ListDeployment (listErr : Bool) (items : List Deployment) : HandlerOutcome :=
  if listErr then .panicked "list failed"
  else
    match listLines items with
    | none => .panicked "nil replicas dereference"
    | some out => .wrote out

/-- One write performed on the `restful.Response`. -/
inductive RespWrite where
  | errorStatus (code : Int) (body : String)
  | body (s : String)
deriving DecidableEq, Repr

/-- Trace of the `DeleteDeployment` handler (`k8s-api-cli.go:193-207`):
the propagation policy passed to the delete call and the sequence of writes
to the response. `deleteErr` is the store's reply (`some e` = failure with
error text `e`). The handler always uses `DeletePropagationForeground`; on
failure it calls `resp.WriteError(500, err)` and then — with no `return`
after the error branch — still falls through to
`io.WriteString(resp, "Deleted deployment.")`. It never panics. -/
structure DeleteTrace where
  Propagation : String
  Writes : List RespWrite
  Panicked : Bool
deriving DecidableEq, Repr

/-- The `DeleteDeployment` handler (`k8s-api-cli.go:193-207`). -/
def DeleteDeployment (deleteErr : Option String) : DeleteTrace :=
  { Propagation := "Foreground"
    Writes :=
      (match deleteErr with
       | some e => [RespWrite.errorStatus 500 e]
       | none => []) ++ [RespWrite.body "Deleted deployment."]
    Panicked := false }

/-- Whether a handler outcome is an HTTP client-error (4xx) response. -/
def isClientError : HandlerOutcome → Bool
  | .clientError _ => true
  | _ => false

/-- Rendering of the list response body: one `name replicaCount` line per
item, in store order. -/
def renderLines : List Deployment → String
  | [] => ""
  | d :: ds => d.Name ++ " " ++ toString (d.Replicas.getD 0) ++ "\n" ++ renderLines ds

/-! ### Theorems -/

/-- Replacing a maximal non-matching run with nothing and then filtering is
the same as filtering: dropping a prefix of characters that fail `p` does
not change the `p`-filtered contents. -/
theorem filter_dropWhile_not (p : Char → Bool) (l : List Char) :
    (l.dropWhile (fun x => !p x)).filter p = l.filter p := by
  induction l with
  | nil => rfl
  | cons x xs ih =>
    by_cases h : p x
    · simp [List.dropWhile_cons, h]
    · simp [List.dropWhile_cons, h, List.filter_cons, ih]

/-- The regex replacement `[^a-zA-Z0-9]+ → ""` keeps exactly the
alphanumeric characters, in order. -/
theorem regexStripRuns_eq_filter (l : List Char) :
    regexStripRuns l = l.filter isAlphaNumAscii := by
  induction l using regexStripRuns.induct with
  | case1 => rw [regexStripRuns]; rfl
  | case2 c cs h ih =>
    simp [regexStripRuns, h, List.filter_cons, ih]
  | case3 c cs h ih =>
    rw [regexStripRuns]
    simp only [h, if_false, Bool.false_eq_true]
    rw [ih, filter_dropWhile_not, List.filter_cons]
    simp [h]

/-- C3. Name derivation: for every non-empty image string `s`, the derived
resource name is `s` with all characters outside `[a-zA-Z0-9]` stripped;
the derivation is deterministic, and every character of the result is in
`[a-zA-Z0-9]`. -/
theorem C3_name_derivation (s : String) (_hs : s ≠ "") :
    RemoveNonAlphanumericChars s = stripNonAlphanumericSpec s ∧
    RemoveNonAlphanumericChars s = RemoveNonAlphanumericChars s ∧
    ∀ c ∈ (RemoveNonAlphanumericChars s).toList, isAlphaNumAscii c = true := by
  refine ⟨?_, rfl, ?_⟩
  · exact congrArg String.mk (regexStripRuns_eq_filter s.toList)
  · intro c hc
    have : (RemoveNonAlphanumericChars s).toList
        = s.toList.filter isAlphaNumAscii := by
      exact congrArg String.toList
        (congrArg String.mk (regexStripRuns_eq_filter s.toList))
    rw [this] at hc
    exact List.of_mem_filter hc

/-- Witness for C3 at the concrete image `"nginx:1.12"`. -/
theorem C3_name_derivation_witness :
    ("nginx:1.12" : String) ≠ "" ∧
    (RemoveNonAlphanumericChars "nginx:1.12" = stripNonAlphanumericSpec "nginx:1.12" ∧
     RemoveNonAlphanumericChars "nginx:1.12" = RemoveNonAlphanumericChars "nginx:1.12" ∧
     ∀ c ∈ (RemoveNonAlphanumericChars "nginx:1.12").toList, isAlphaNumAscii c = true) :=
  ⟨by decide, C3_name_derivation "nginx:1.12" (by decide)⟩

/-- The process-global template after a sequence of create requests: `main`
runs `CreateDeploymentStruct` once, then each `CreateDeployment` request
mutates the global in place (no other handler writes it). -/
def globalAfter (reqs : List DeploymentInfo) : Deployment :=
  reqs.foldl applyCreateMutation CreateDeploymentStruct

/-- Shape invariant of the global template: 2 replicas, selector in lockstep
with the pod labels, and exactly the one `web` container with its named TCP
port. -/
def TemplateInv (d : Deployment) : Prop :=
  d.Replicas = some 2 ∧
  d.MatchLabels = d.Template.Labels ∧
  ∃ img, d.Template.Containers
    = [{ Name := "web", Image := img
         Ports := [{ Name := "http", Protocol := "TCP", PortNumber := 80 }] }]

theorem templateInv_init : TemplateInv CreateDeploymentStruct :=
  ⟨rfl, rfl, "nginx:1.12", rfl⟩

theorem templateInv_step (d : Deployment) (info : DeploymentInfo)
    (h : TemplateInv d) : TemplateInv (applyCreateMutation d info) := by
  obtain ⟨hrep, hlab, img, hcont⟩ := h
  refine ⟨hrep, ?_, info.Image, ?_⟩
  · simp only [applyCreateMutation, hlab]
  · simp only [applyCreateMutation, hcont, setFirstImage]

theorem templateInv_fold (reqs : List DeploymentInfo) (d : Deployment)
    (h : TemplateInv d) : TemplateInv (reqs.foldl applyCreateMutation d) := by
  induction reqs generalizing d with
  | nil => exact h
  | cons r rs ih => exact ih _ (templateInv_step d r h)

theorem globalAfter_inv (reqs : List DeploymentInfo) :
    TemplateInv (globalAfter reqs) :=
  templateInv_fold reqs CreateDeploymentStruct templateInv_init

/-- The deployment submitted by the create path for request `(i, n)` after
any prior request history: derived name, request namespace, the fixed
replica count, and the single `web` container carrying image `i`. -/
theorem create_template_shape (reqs : List DeploymentInfo) (i n : String) :
    (applyCreateMutation (globalAfter reqs) ⟨i, n⟩).Name
      = RemoveNonAlphanumericChars i ∧
    (applyCreateMutation (globalAfter reqs) ⟨i, n⟩).Namespace = n ∧
    (applyCreateMutation (globalAfter reqs) ⟨i, n⟩).Replicas = some 2 ∧
    (applyCreateMutation (globalAfter reqs) ⟨i, n⟩).Template.Containers
      = [{ Name := "web", Image := i
           Ports := [{ Name := "http", Protocol := "TCP", PortNumber := 80 }] }] := by
  obtain ⟨hrep, hlab, img, hcont⟩ := globalAfter_inv reqs
  refine ⟨rfl, rfl, hrep, ?_⟩
  simp only [applyCreateMutation, hcont, setFirstImage]

theorem remove_nginx112 : RemoveNonAlphanumericChars "nginx:1.12" = "nginx112" := by
  simp only [RemoveNonAlphanumericChars, regexStripRuns_eq_filter]
  rfl

/-- C4. Create-path template construction: for every create request with
image `i` and namespace `n` (after any prior request history), the submitted
deployment has the alphanumeric projection of `i` as its name, replica
count 2, and a single container with image `i` declaring one named TCP
port; in particular image `"nginx:1.12"` yields name `"nginx112"`, 2
replicas and image `"nginx:1.12"`. -/
theorem C4_create_template (reqs : List DeploymentInfo) (i n : String) :
    ((applyCreateMutation (globalAfter reqs) ⟨i, n⟩).Name
        = RemoveNonAlphanumericChars i ∧
      (applyCreateMutation (globalAfter reqs) ⟨i, n⟩).Namespace = n ∧
      (applyCreateMutation (globalAfter reqs) ⟨i, n⟩).Replicas = some 2 ∧
      (applyCreateMutation (globalAfter reqs) ⟨i, n⟩).Template.Containers
        = [{ Name := "web", Image := i
             Ports := [{ Name := "http", Protocol := "TCP", PortNumber := 80 }] }]) ∧
    (applyCreateMutation (globalAfter reqs) ⟨"nginx:1.12", "demo"⟩).Name
        = "nginx112" ∧
    (applyCreateMutation (globalAfter reqs) ⟨"nginx:1.12", "demo"⟩).Replicas
        = some 2 ∧
    (applyCreateMutation (globalAfter reqs) ⟨"nginx:1.12", "demo"⟩).Template.Containers
        = [{ Name := "web", Image := "nginx:1.12"
             Ports := [{ Name := "http", Protocol := "TCP", PortNumber := 80 }] }] := by
  obtain ⟨h1, h2, h3, h4⟩ := create_template_shape reqs "nginx:1.12" "demo"
  exact ⟨create_template_shape reqs i n, h1.trans remove_nginx112, h3, h4⟩

/-- C5. Label lockstep invariant: every deployment template constructed by
the create path (any image, any namespace, any prior request history) has
its label selector equal to the pod template's labels. -/
theorem C5_label_lockstep (reqs : List DeploymentInfo) (info : DeploymentInfo) :
    (applyCreateMutation (globalAfter reqs) info).MatchLabels
      = (applyCreateMutation (globalAfter reqs) info).Template.Labels :=
  (templateInv_step _ info (globalAfter_inv reqs)).2.1

/-- C6. Namespace-overlap tolerance: when the namespace-create call returns
"already exists", the handler behaves exactly as when it returns success
(the error is swallowed), the deployment-create call is still issued with
the constructed template, and with the store accepting that call the create
operation succeeds. -/
theorem C6_namespace_overlap (g : Deployment) (parsed : Option DeploymentInfo)
    (ok : Bool) :
    CreateDeployment g parsed .alreadyExists ok
      = CreateDeployment g parsed .ok ok ∧
    (CreateDeployment g parsed .alreadyExists ok).deploySubmitted
      = some (applyCreateMutation g (parsed.getD { Image := "", Namespace := "" })) ∧
    (CreateDeployment g parsed .alreadyExists true).outcome
      = .wrote ("Created deployment "
          ++ (applyCreateMutation g (parsed.getD { Image := "", Namespace := "" })).Name) :=
  ⟨rfl, rfl, rfl⟩

theorem remove_empty : RemoveNonAlphanumericChars "" = "" := by
  simp only [RemoveNonAlphanumericChars, regexStripRuns_eq_filter]
  rfl

/-- C9. Malformed create body is not rejected: when the body fails to parse
(zero-valued DTO), the handler still submits a namespace create for the
empty name and a deployment create whose name, namespace and container
image are all empty, and never returns a client-error response. -/
theorem C9_malformed_body (reqs : List DeploymentInfo) (nsRes : NsCreateResult)
    (ok : Bool) :
    (CreateDeployment (globalAfter reqs) none nsRes ok).nsSubmitted = some "" ∧
    (CreateDeployment (globalAfter reqs) none nsRes ok).deploySubmitted
      = some (applyCreateMutation (globalAfter reqs) { Image := "", Namespace := "" }) ∧
    (applyCreateMutation (globalAfter reqs) { Image := "", Namespace := "" }).Name = "" ∧
    (applyCreateMutation (globalAfter reqs) { Image := "", Namespace := "" }).Namespace = "" ∧
    (applyCreateMutation (globalAfter reqs) { Image := "", Namespace := "" }).Template.Containers
      = [{ Name := "web", Image := ""
           Ports := [{ Name := "http", Protocol := "TCP", PortNumber := 80 }] }] ∧
    isClientError (CreateDeployment (globalAfter reqs) none nsRes ok).outcome = false := by
  obtain ⟨h1, h2, _, h4⟩ := create_template_shape reqs "" ""
  refine ⟨rfl, rfl, h1.trans remove_empty, h2, h4, ?_⟩
  cases ok <;> rfl

/-- C7. Fixed update mutation: for every fetched deployment with at least
one container, the mutation applied by the update handler is the same for
any two requests (no field of the request body influences it), and it sets
the replica count to the fixed value 1 and the first container's image to
the fixed tag `"nginx:1.13"`, leaving everything else unchanged. -/
theorem C7_fixed_update_mutation (r1 r2 : HttpRequest) (fetched : Deployment)
    (c : Container) (cs : List Container)
    (h : fetched.Template.Containers = c :: cs) :
    updateMutationOf r1 fetched = updateMutationOf r2 fetched ∧
    updateMutationOf r1 fetched
      = some { fetched with
               Replicas := some 1
               Template := { fetched.Template with
                             Containers := { c with Image := "nginx:1.13" } :: cs } } := by
  refine ⟨rfl, ?_⟩
  unfold updateMutationOf
  rw [h]

/-- Witness for C7: two requests with different bodies and path parameters
against the initial template. -/
theorem C7_fixed_update_mutation_witness :
    CreateDeploymentStruct.Template.Containers
      = ({ Name := "web", Image := "nginx:1.12"
           Ports := [{ Name := "http", Protocol := "TCP", PortNumber := 80 }] } : Container) :: [] ∧
    (updateMutationOf { Body := "ignored body", PathParams := [] } CreateDeploymentStruct
        = updateMutationOf { Body := "", PathParams := [("namespace-name", "demo")] }
            CreateDeploymentStruct ∧
     updateMutationOf { Body := "ignored body", PathParams := [] } CreateDeploymentStruct
        = some { CreateDeploymentStruct with
                 Replicas := some 1
                 Template := { CreateDeploymentStruct.Template with
                               Containers :=
                                 { Name := "web", Image := "nginx:1.13"
                                   Ports := [{ Name := "http", Protocol := "TCP"
                                               PortNumber := 80 }] } :: [] } }) :=
  ⟨rfl, C7_fixed_update_mutation _ _ CreateDeploymentStruct _ [] rfl⟩

/-- In the update closure, a fetched deployment with at least one container
is mutated successfully (no index panic). -/
theorem updateMutationOf_isSome (r : HttpRequest) (dep : Deployment)
    (c : Container) (cs : List Container)
    (hc : dep.Template.Containers = c :: cs) :
    updateMutationOf r dep
      = some { dep with
               Replicas := some 1
               Template := { dep.Template with
                             Containers := { c with Image := "nginx:1.13" } :: cs } } := by
  unfold updateMutationOf
  rw [hc]

/-- Conflict-then-accept store: with `k` conflicts before the first
acceptance, starting at cycle `i ≤ k` with more than `k - i` steps of
budget left, the loop ends `updated` after cycle `k + 1`. -/
theorem updateLoop_conflicts_then_accept (dep : Deployment) (c : Container)
    (cs : List Container) (hc : dep.Template.Containers = c :: cs)
    (req : HttpRequest) (k : Nat) :
    ∀ steps i, i ≤ k → k < i + steps →
      updateLoop ⟨fun _ => some dep,
                  fun j => if j < k then .conflict else .accepted⟩ req steps i
        = (.updated, k + 1) := by
  intro steps
  induction steps with
  | zero => intro i h1 h2; omega
  | succ s ih =>
    intro i h1 h2
    rw [updateLoop]
    simp only [updateMutationOf_isSome req dep c cs hc]
    by_cases hik : i < k
    · simp only [hik, if_true]
      exact ih (i + 1) hik (by omega)
    · have : i = k := by omega
      simp only [hik, if_false]
      rw [this]

/-- Always-conflict store: the loop consumes its whole budget and ends
`exhausted`. -/
theorem updateLoop_always_conflict (dep : Deployment) (c : Container)
    (cs : List Container) (hc : dep.Template.Containers = c :: cs)
    (req : HttpRequest) :
    ∀ steps i,
      updateLoop ⟨fun _ => some dep, fun _ => .conflict⟩ req steps i
        = (.exhausted, i + steps) := by
  intro steps
  induction steps with
  | zero => intro i; rw [updateLoop, Nat.add_zero]
  | succ s ih =>
    intro i
    rw [updateLoop]
    simp only [updateMutationOf_isSome req dep c cs hc]
    rw [ih (i + 1)]
    exact congrArg _ (by omega)

/-- C1. Conflict-retry convergence: for every `k` below the retry budget,
against a store that answers the first `k` submissions with version
conflict and accepts the `(k+1)`-th (fetches always succeeding), the update
handler succeeds and executes exactly `k + 1` fetch/mutate/submit cycles. -/
theorem C1_conflict_retry_convergence (k : Nat) (hk : k < defaultRetrySteps)
    (dep : Deployment) (c : Container) (cs : List Container)
    (hc : dep.Template.Containers = c :: cs) (req : HttpRequest) :
    UpdateDeployment ⟨fun _ => some dep,
                      fun j => if j < k then .conflict else .accepted⟩ req
      = (.wrote "Updated deployment...", k + 1) := by
  unfold UpdateDeployment
  rw [updateLoop_conflicts_then_accept dep c cs hc req k defaultRetrySteps 0
        (Nat.zero_le k) (by omega)]

/-- Witness for C1 at `k = 2` against the initial template. -/
theorem C1_conflict_retry_convergence_witness :
    2 < defaultRetrySteps ∧
    CreateDeploymentStruct.Template.Containers
      = ({ Name := "web", Image := "nginx:1.12"
           Ports := [{ Name := "http", Protocol := "TCP", PortNumber := 80 }] } : Container) :: [] ∧
    UpdateDeployment ⟨fun _ => some CreateDeploymentStruct,
                      fun j => if j < 2 then .conflict else .accepted⟩
        { Body := "", PathParams := [] }
      = (.wrote "Updated deployment...", 3) :=
  ⟨by decide, rfl,
   C1_conflict_retry_convergence 2 (by decide) CreateDeploymentStruct _ [] rfl
     { Body := "", PathParams := [] }⟩

/-- C2. Conflict-retry exhaustion: against a store that rejects every
submission with version conflict, the update handler executes exactly the
configured maximum number of cycles (`defaultRetrySteps = 5`), stops, and
surfaces the failure as the fatal update panic. -/
theorem C2_conflict_retry_exhaustion (dep : Deployment) (c : Container)
    (cs : List Container) (hc : dep.Template.Containers = c :: cs)
    (req : HttpRequest) :
    UpdateDeployment ⟨fun _ => some dep, fun _ => .conflict⟩ req
      = (.panicked "Update failed", defaultRetrySteps) := by
  unfold UpdateDeployment
  rw [updateLoop_always_conflict dep c cs hc req defaultRetrySteps 0]
  rfl

/-- Witness for C2 against the initial template. -/
theorem C2_conflict_retry_exhaustion_witness :
    CreateDeploymentStruct.Template.Containers
      = ({ Name := "web", Image := "nginx:1.12"
           Ports := [{ Name := "http", Protocol := "TCP", PortNumber := 80 }] } : Container) :: [] ∧
    UpdateDeployment ⟨fun _ => some CreateDeploymentStruct, fun _ => .conflict⟩
        { Body := "", PathParams := [] }
      = (.panicked "Update failed", defaultRetrySteps) :=
  ⟨rfl, C2_conflict_retry_exhaustion CreateDeploymentStruct _ [] rfl
          { Body := "", PathParams := [] }⟩

/-- C8. Delete semantics at the failing input: the delete call always uses
foreground propagation and the handler never panics, and on success the
response is exactly `"Deleted deployment."`; but when the store's delete
call fails, the handler writes the HTTP 500 error response AND then still
writes the success body `"Deleted deployment."` — the error branch has no
early return, so the two outcomes are not mutually exclusive. -/
theorem C8_delete_error_writes_both :
    DeleteDeployment (some "backend failure")
      = { Propagation := "Foreground"
          Writes := [RespWrite.errorStatus 500 "backend failure",
                     RespWrite.body "Deleted deployment."]
          Panicked := false } ∧
    DeleteDeployment none
      = { Propagation := "Foreground"
          Writes := [RespWrite.body "Deleted deployment."]
          Panicked := false } :=
  ⟨rfl, rfl⟩

/-- With every item's replica pointer set, the buffer loop produces the
newline-delimited `name replicaCount` lines; with any pointer absent, the
dereference panics and nothing is produced. -/
theorem listLines_eq (items : List Deployment) :
    listLines items
      = (if items.all (fun d => (d.Replicas).isSome) then some (renderLines items)
         else none) := by
  induction items with
  | nil => rfl
  | cons d ds ih =>
    cases hd : d.Replicas with
    | none => simp [listLines, hd]
    | some r =>
      rw [listLines, hd, ih]
      by_cases hall : ds.all (fun d => (d.Replicas).isSome)
      · simp [hall, hd, renderLines]
      · simp [hall, hd]

/-- C10. List handler totality precondition: the handler produces its
newline-delimited `name replicaCount` output, one line per item in store
order, exactly when every listed deployment has its replica count set;
with any replica pointer absent the unguarded dereference panics instead. -/
theorem C10_list_totality (items : List Deployment) :
    ListDeployment false items
      = (if items.all (fun d => (d.Replicas).isSome) then .wrote (renderLines items)
         else .panicked "nil replicas dereference") := by
  rw [ListDeployment, if_neg (by simp), listLines_eq]
  by_cases hall : items.all (fun d => (d.Replicas).isSome)
  · simp [hall]
  · simp [hall]

end K8sDM
